import Mathlib

/-!
Verification of the premises-processing pipeline (LangGraph state machine).

Shallow embedding of the repository's per-row state machine:
`graph/state.py`, `graph/nodes/*.py`, routers and loop wiring from
`graph/orchestrator.py`, and the pure helper
`GooglePlacesTool.parse_address_components` from `graph/tools/google_places.py`.

Modelling conventions:
- Python floats are modelled as `Rat`; the square-root distance comparison
  `d > 0.05` is rendered as the equivalent squared comparison `d2 > 1/400`.
- Python `None` becomes `Option.none`; a CSV row (dict) becomes an
  association list `List (String × String)`.
- The external collaborators (geocoding, place search, records store,
  LLM scorers) are parameters collected in an `Env` record, since the spec
  treats them as swappable services specified only at their interface.
- Numeric values interpolated into message strings are rendered with
  `toString`; the digits of these renderings are never load-bearing.
- File/console I/O (prints, the CSV writes in `write_output_node`) is not
  modelled; `write_output_node` keeps its state transition only.
-/

namespace PremisePipeline

/-! ### Python string primitives -/

/-- Python whitespace for `str.strip` / `\s` (ASCII range used by this code). -/
def isPyWS (c : Char) : Bool :=
  c == ' ' || c == '\t' || c == '\n' || c == '\r' || c == '\x0b' || c == '\x0c'

/-- `str.strip()`: drop whitespace from both ends. -/
def pyStrip (s : String) : String :=
  String.mk (((s.data.dropWhile isPyWS).reverse.dropWhile isPyWS).reverse)

/-- `str.lower()` (ASCII). -/
def pyLower (s : String) : String := String.mk (s.data.map Char.toLower)

/-- `str.upper()` (ASCII). -/
def pyUpper (s : String) : String := String.mk (s.data.map Char.toUpper)

/-- Does the second list occur as an initial segment of the first? -/
def leadsWith : List Char → List Char → Bool
  | _, [] => true
  | [], _ :: _ => false
  | a :: as, b :: bs => a == b && leadsWith as bs

/-- Substring occurrence, Python `pat in hay`. -/
def containsSeq : List Char → List Char → Bool
  | [], pat => pat.isEmpty
  | hay@(_ :: rest), pat => leadsWith hay pat || containsSeq rest pat

/-- Python `pat in hay` on strings. -/
def strHas (hay pat : String) : Bool := containsSeq hay.data pat.data

/-- `str.title()` (ASCII): upper-case the first letter of each alpha run,
lower-case the rest. -/
def titleAux : Bool → List Char → List Char
  | _, [] => []
  | prevAlpha, c :: rest =>
    if c.isAlpha then
      (if prevAlpha then c.toLower else c.toUpper) :: titleAux true rest
    else c :: titleAux false rest

def pyTitle (s : String) : String := String.mk (titleAux false s.data)

/-- `re.sub(r'\s+', ' ', s)`: collapse each whitespace run to one space. -/
def collapseAux : Bool → List Char → List Char
  | _, [] => []
  | prevWS, c :: rest =>
    if isPyWS c then
      (if prevWS then collapseAux true rest else ' ' :: collapseAux true rest)
    else c :: collapseAux false rest

def collapseSpaces (s : String) : String := String.mk (collapseAux false s.data)

/-- `re.match(r'^\d+\s', s)`: one or more digits then a whitespace char,
anchored at the start. -/
def leadDigitSpace (s : String) : Bool :=
  let ds := s.data.takeWhile Char.isDigit
  !ds.isEmpty &&
    (match s.data.drop ds.length with
     | c :: _ => isPyWS c
     | [] => false)

/-- Python `re`: `$` also matches just before one final newline. -/
def stripFinalNL (l : List Char) : List Char :=
  if l.getLast? == some '\n' then l.dropLast else l

def isUpperAZ (c : Char) : Bool := 'A' ≤ c && c ≤ 'Z'

/-- Core of `^[A-Z]{2}$`: exactly two ASCII capitals. -/
def twoUpperCore : List Char → Bool
  | [a, b] => isUpperAZ a && isUpperAZ b
  | _ => false

/-- `re.match(r'^[A-Z]{2}$', s)` with Python's `$` semantics. -/
def pyMatchState (s : String) : Bool := twoUpperCore (stripFinalNL s.data)

def allDigits (l : List Char) : Bool := l.all Char.isDigit

/-- Core of `^\d{5}(-\d{4})?$`: a 5-digit or 5+4-digit US ZIP. -/
def zipCore (l : List Char) : Bool :=
  (l.length == 5 && allDigits l) ||
    (l.length == 10 && allDigits (l.take 5) && l.get? 5 == some '-' &&
      allDigits (l.drop 6))

/-- `re.match(r'^\d{5}(-\d{4})?$', s)` with Python's `$` semantics. -/
def pyMatchZip (s : String) : Bool := zipCore (stripFinalNL s.data)

/-! ### Data model (`graph/state.py` and tool payloads) -/

/-- A raw CSV row: arbitrary header names mapped to raw values. -/
abbrev RawRow := List (String × String)

/-- The canonical normalized row produced by `parse_row_node`. -/
structure Row where
  name : String
  address : String
  city : String
  state : String
  postal_code : String
deriving Repr, DecidableEq

def emptyRow : Row := ⟨"", "", "", "", ""⟩

/-- One Google address component (`long_name`, `short_name`, `types`). -/
structure AddrComp where
  long_name : String
  short_name : String
  types : List String
deriving Repr, DecidableEq

/-- A geocoding hit (`GooglePlacesTool.geocode_address`). -/
structure GeoResult where
  latitude : Rat
  longitude : Rat
  formatted_address : String
  address_components : List AddrComp
deriving Repr, DecidableEq

/-- A place-search candidate (`GooglePlacesTool.search_place`); coordinates
may be absent, as the node code guards them with a truthiness check. -/
structure PlaceResult where
  name : String
  formatted_address : String
  latitude : Option Rat
  longitude : Option Rat
  types : List String
  address_components : List AddrComp
deriving Repr, DecidableEq

/-- An existing record from the records store; only the fields the core
reads are kept (`id` via `.get`, hence optional; names for messages). -/
structure Premise where
  id : Option Nat
  premise_name : String
  address_line_1 : String
deriving Repr, DecidableEq

/-- An occupancy-type option from the records store. -/
structure OccType where
  occupancy_type_id : Nat
  occupancy_type_name : String
deriving Repr, DecidableEq

/-- The standardized address bundle built by `standardize_node`. -/
structure StdAddress where
  address_line_1 : String
  city : String
  state : String
  state_code : String
  postal_code : String
deriving Repr, DecidableEq

def emptyStdAddress : StdAddress := ⟨"", "", "", "", ""⟩

/-- The comparison record handed to the duplicate-confidence scorer. -/
structure NewRecord where
  name : String
  address_line_1 : String
  city : String
  state : String
deriving Repr, DecidableEq

/-- The assembled output record (`format_output_node`).  `latitude` and
`longitude` encode the CSV cell `str(x)` as `some x` and the empty string
as `none`.  The always-empty placeholder columns (Id, Reference Number,
AHJ fields, contact fields, Knox Box fields, …) and the constant columns
never read by `verify_output_node` are omitted: no code path reads them. -/
structure OutputRow where
  premiseName : String
  addressLine1 : String
  postalCode : String
  status : String
  country : String
  stateCode : String
  city : String
  premiseOccupancy : String
  latitude : Option Rat
  longitude : Option Rat
  countryShort : String
  metaConfidence : Option Int
  metaDupChecked : Bool
deriving Repr, DecidableEq

/-- An entry of the error accumulator: the current row's fields plus
`error_reason` (`error_handler_node`). -/
structure ErrorEntry where
  row : Row
  error_reason : String
deriving Repr, DecidableEq

/-- An entry of the duplicate log (`log_duplicate_node`). -/
structure DupEntry where
  source_name : String
  source_address : String
  standardized_name : String
  matched_premise_id : Option Nat
  confidence_score : Option Int
  reason : String
deriving Repr, DecidableEq

/-- `PremiseState` from `graph/state.py`. -/
structure PremiseState where
  csv_rows : List RawRow
  current_row_index : Nat
  current_row : Row
  places_result : Option PlaceResult
  places_found : Bool
  standardized_name : String
  standardized_address : StdAddress
  latitude : Option Rat
  longitude : Option Rat
  places_type : Option String
  existing_premises : List Premise
  duplicate_found : Bool
  confidence_score : Option Int
  matched_premise_id : Option Nat
  state_id : Option Nat
  state_code : Option String
  occupancy_type_options : List OccType
  selected_occupancy_type : Option OccType
  output_row : Option OutputRow
  successful_rows : List OutputRow
  error_rows : List ErrorEntry
  duplicate_log : List DupEntry
  verification_passed : Bool
  validation_errors : List String
  next_step : String
  error_message : Option String
deriving Repr, DecidableEq

/-- The external collaborators (spec §6), abstracted as pure functions. -/
structure Env where
  geocode : String → String → String → Option GeoResult
  searchPlace : String → Rat → Rat → Option PlaceResult
  getStateByCode : String → Option Nat
  getStateByName : String → Option Nat
  queryPremises : Rat → Rat → Option Nat → Rat → List Premise
  occupancyTypesByState : String → List OccType
  scoreConfidence : NewRecord → Premise → Int
  classifyOccupancy : Option String → String → List OccType → Option Nat

/-! ### Pure tool helper (`GooglePlacesTool.parse_address_components`) -/

/-- The intermediate parse of address components; `Option` distinguishes a
missing key from an empty value, matching the Python dict accesses. -/
structure ParsedAddr where
  street_number : Option String
  route : Option String
  city : Option String
  state : Option String
  state_code : Option String
  postal_code : Option String
  address_line_1 : String
deriving Repr, DecidableEq

def parse_address_components (comps : List AddrComp) : ParsedAddr :=
  let p0 : ParsedAddr :=
    comps.foldl (fun p c =>
      if c.types.contains "street_number" then { p with street_number := some c.long_name }
      else if c.types.contains "route" then { p with route := some c.long_name }
      else if c.types.contains "locality" then { p with city := some c.long_name }
      else if c.types.contains "administrative_area_level_1" then
        { p with state := some c.long_name, state_code := some c.short_name }
      else if c.types.contains "postal_code" then { p with postal_code := some c.long_name }
      else p)
      ⟨none, none, none, none, none, none, ""⟩
  let sn := p0.street_number.getD ""
  let rt := p0.route.getD ""
  let al1 := if sn ≠ "" && rt ≠ "" then sn ++ " " ++ rt else if rt ≠ "" then rt else ""
  { p0 with address_line_1 := al1 }

/-! ### Node functions (`graph/nodes/*.py`)

Each node returns a partial update that LangGraph merges into the state;
the embedding applies the merge directly, producing the full updated state. -/

/-- Key classification targets of `parse_row_node`'s cascade. -/
inductive FieldTag | tname | taddr | tcity | tstate | tpostal
deriving Repr, DecidableEq

/-- The `if/elif` cascade over one header in `parse_row_node`. -/
def keyField (key : String) : Option FieldTag :=
  let kl := pyStrip (pyLower key)
  if strHas kl "premise_name" || strHas kl "business_name" || strHas kl "company_name" ||
      strHas kl "facility_name" || strHas kl "location_name" || kl == "name" || kl == "business" then
    some .tname
  else if (strHas kl "address" || strHas kl "street" || strHas kl "location") && !(strHas kl "name") then
    some .taddr
  else if strHas kl "city" || strHas kl "municipality" || strHas kl "town" then
    some .tcity
  else if strHas kl "state" || kl == "st" then
    some .tstate
  else if strHas kl "postal" || strHas kl "zip" then
    some .tpostal
  else none

def setField (r : Row) : FieldTag → String → Row
  | .tname, v => { r with name := v }
  | .taddr, v => { r with address := v }
  | .tcity, v => { r with city := v }
  | .tstate, v => { r with state := v }
  | .tpostal, v => { r with postal_code := v }

/-- Field normalization of `parse_row_node`: classify each header in order,
store the stripped value; unmatched canonical fields default to `""`. -/
def normalizeRow (raw : RawRow) : Row :=
  raw.foldl
    (fun r kv =>
      match keyField kv.1 with
      | some f => setField r f (pyStrip kv.2)
      | none => r)
    emptyRow

def parse_row_node (s : PremiseState) : PremiseState :=
  if s.current_row_index ≥ s.csv_rows.length then
    { s with next_step := "write_output", error_message := none }
  else
    let raw := s.csv_rows.getD s.current_row_index []
    { s with
        current_row := normalizeRow raw
        current_row_index := s.current_row_index
        next_step := "places_search"
        error_message := none }

/-- The 50 US state codes plus DC (`VALID_US_STATE_CODES`). -/
def validStateCodes : List String :=
  ["AL", "AK", "AZ", "AR", "CA", "CO", "CT", "DE", "FL", "GA",
   "HI", "ID", "IL", "IN", "IA", "KS", "KY", "LA", "ME", "MD",
   "MA", "MI", "MN", "MS", "MO", "MT", "NE", "NV", "NH", "NJ",
   "NM", "NY", "NC", "ND", "OH", "OK", "OR", "PA", "RI", "SC",
   "SD", "TN", "TX", "UT", "VT", "VA", "WA", "WV", "WI", "WY", "DC"]

/-- `NON_BUSINESS_TYPES` from `places_search.py`. -/
def nonBusinessTypes : List String :=
  ["street_address", "route", "intersection", "political",
   "country", "administrative_area_level_1", "administrative_area_level_2",
   "administrative_area_level_3", "administrative_area_level_4",
   "administrative_area_level_5", "locality", "sublocality",
   "neighborhood", "premise", "subpremise", "postal_code",
   "natural_feature", "airport", "park", "point_of_interest"]

/-- The free-text query `places_search_node` sends to the place search. -/
def placesQuery (cr : Row) (stateCode : String) : String :=
  if cr.name ≠ "" then cr.name ++ ", " ++ cr.address ++ ", " ++ cr.city ++ ", " ++ stateCode
  else cr.address ++ ", " ++ cr.city ++ ", " ++ stateCode

/-- The synthetic address-only result (user name + geocoded data,
type `premise`) built in the fallback branches of `places_search_node`. -/
def syntheticPlace (name : String) (g : GeoResult) : PlaceResult :=
  { name := name
    formatted_address := g.formatted_address
    latitude := some g.latitude
    longitude := some g.longitude
    types := ["premise"]
    address_components := g.address_components }

/-- The state update shared by the two synthetic-result returns. -/
def syntheticUpdate (s : PremiseState) (name : String) (g : GeoResult) : PremiseState :=
  { s with
      places_result := some (syntheticPlace name g)
      places_found := true
      latitude := some g.latitude
      longitude := some g.longitude
      places_type := some "premise"
      next_step := "standardize"
      error_message := none }

/-- Discard a candidate that is too far from the geocoded point: the check
runs only when both candidate coordinates are present and nonzero (Python
truthiness of `places_lat and places_lng`), and compares the squared
planar distance against `0.05²`. -/
def filterByDistance (g : GeoResult) : Option PlaceResult → Option PlaceResult
  | none => none
  | some r =>
    match r.latitude, r.longitude with
    | some pla, some plo =>
      if pla ≠ 0 && plo ≠ 0 then
        if (pla - g.latitude) * (pla - g.latitude) +
            (plo - g.longitude) * (plo - g.longitude) > 1 / 400 then none
        else some r
      else some r
    | _, _ => some r

def places_search_node (env : Env) (s : PremiseState) : PremiseState :=
  let cr := s.current_row
  let stateCode := pyUpper cr.state
  if cr.address = "" || cr.city = "" || stateCode = "" then
    { s with
        places_result := none, places_found := false
        latitude := none, longitude := none, places_type := none
        next_step := "error_handler"
        error_message := some "Incomplete address information" }
  else if !(validStateCodes.contains stateCode) then
    { s with
        places_result := none, places_found := false
        latitude := none, longitude := none, places_type := none
        next_step := "error_handler"
        error_message := some ("Invalid US state code: " ++ stateCode) }
  else
    match env.geocode cr.address cr.city stateCode with
    | none =>
      { s with
          places_result := none, places_found := false
          latitude := none, longitude := none, places_type := none
          next_step := "error_handler"
          error_message := some ("Address not found: " ++ cr.address ++ ", " ++ cr.city ++ ", " ++ stateCode) }
    | some g =>
      let result := filterByDistance g (env.searchPlace (placesQuery cr stateCode) g.latitude g.longitude)
      match result with
      | some r =>
        if !r.types.isEmpty && r.types.all (nonBusinessTypes.contains ·) then
          syntheticUpdate s cr.name g
        else
          let ptype := match r.types with
            | [] => "establishment"
            | t :: _ => t
          { s with
              places_result := some r
              places_found := true
              latitude := some g.latitude
              longitude := some g.longitude
              places_type := some ptype
              next_step := "standardize"
              error_message := none }
      | none => syntheticUpdate s cr.name g

/-- The Places branch of `standardize_node` (identity resolution usable). -/
def standardizeFromPlaces (pr : PlaceResult) (cr : Row) : String × StdAddress :=
  let places_name := pyStrip pr.name
  let original_name := pyStrip cr.name
  let sname0 :=
    if leadDigitSpace places_name then
      (if original_name ≠ "" then pyTitle original_name else places_name)
    else
      (if places_name ≠ "" then places_name else pyTitle original_name)
  let sname := collapseSpaces sname0
  let parsed := parse_address_components pr.address_components
  let al1 :=
    if parsed.address_line_1 = "" then
      String.mk (pr.formatted_address.data.takeWhile (· ≠ ','))
    else parsed.address_line_1
  (sname,
    { address_line_1 := al1
      city := parsed.city.getD cr.city
      state := parsed.state.getD cr.state
      state_code := parsed.state_code.getD cr.state
      postal_code := parsed.postal_code.getD cr.postal_code })

/-- The fallback branch of `standardize_node` (no usable Places match). -/
def standardizeFallback (cr : Row) : String × StdAddress :=
  (collapseSpaces (pyTitle cr.name),
    { address_line_1 := cr.address
      city := cr.city
      state := cr.state
      state_code := cr.state
      postal_code := cr.postal_code })

def standardize_node (s : PremiseState) : PremiseState :=
  let na :=
    match s.places_result, s.places_found with
    | some pr, true => standardizeFromPlaces pr s.current_row
    | _, _ => standardizeFallback s.current_row
  { s with
      standardized_name := na.1
      standardized_address := na.2
      next_step := "database_query"
      error_message := none }

def database_query_node (env : Env) (s : PremiseState) : PremiseState :=
  let stateCode := s.standardized_address.state_code
  let state_id : Option Nat :=
    if stateCode ≠ "" then
      match env.getStateByCode stateCode with
      | some i => some i
      | none =>
        let stateName := s.standardized_address.state
        if stateName ≠ "" then env.getStateByName stateName else none
    else none
  let existing : List Premise :=
    match s.latitude, s.longitude with
    | some la, some lo =>
      if la ≠ 0 && lo ≠ 0 then env.queryPremises la lo state_id (1 / 1000) else []
    | _, _ => []
  if existing ≠ [] then
    { s with
        existing_premises := existing
        duplicate_found := true
        state_id := state_id
        state_code := some stateCode
        next_step := "confidence_scoring"
        error_message := none }
  else
    { s with
        existing_premises := []
        duplicate_found := false
        state_id := state_id
        state_code := some stateCode
        next_step := "occupancy_classification"
        error_message := none }

/-- The comparison record for the scorer: the original (pre-standardization)
user name when present, falling back to the standardized name. -/
def confNewRecord (s : PremiseState) : NewRecord :=
  let origName := pyStrip s.current_row.name
  { name := if origName ≠ "" then origName else s.standardized_name
    address_line_1 := s.standardized_address.address_line_1
    city := s.standardized_address.city
    state := s.standardized_address.state }

def confidence_scoring_node (env : Env) (s : PremiseState) : PremiseState :=
  match s.existing_premises with
  | [] =>
    { s with
        confidence_score := none
        matched_premise_id := none
        next_step := "occupancy_classification"
        error_message := none }
  | existing :: _ =>
    let score := env.scoreConfidence (confNewRecord s) existing
    { s with
        confidence_score := some score
        matched_premise_id := existing.id
        next_step := if 8 ≤ score then "log_duplicate" else "occupancy_classification"
        error_message := none }

/-- The entry `log_duplicate_node` appends, built from the current state. -/
def mkDupEntry (s : PremiseState) : DupEntry :=
  { source_name := s.current_row.name
    source_address := s.current_row.address
    standardized_name := s.standardized_name
    matched_premise_id := s.matched_premise_id
    confidence_score := s.confidence_score
    reason := "High confidence match (score: " ++
      (match s.confidence_score with
       | some i => toString i
       | none => "None") ++ ")" }

def log_duplicate_node (s : PremiseState) : PremiseState :=
  { s with
      duplicate_log := s.duplicate_log ++ [mkDupEntry s]
      next_step := "next_row"
      error_message := none }

def occupancy_classification_node (env : Env) (s : PremiseState) : PremiseState :=
  let stateCode := s.state_code.getD ""
  let options := if stateCode ≠ "" then env.occupancyTypesByState stateCode else []
  if options = [] then
    { s with
        occupancy_type_options := []
        selected_occupancy_type := none
        next_step := "format_output"
        error_message := some "No occupancy types available for state" }
  else
    let sid := env.classifyOccupancy s.places_type s.standardized_name options
    let sel : Option OccType :=
      match sid with
      | some i => if i = 0 then none else options.find? (fun o => o.occupancy_type_id == i)
      | none => none
    { s with
        occupancy_type_options := options
        selected_occupancy_type := sel
        next_step := "format_output"
        error_message := none }

/-- The output record assembled by `format_output_node`; a zero or missing
coordinate renders as the empty CSV cell (`str(x) if x else ''`). -/
def mkOutputRow (s : PremiseState) : OutputRow :=
  { premiseName := s.standardized_name
    addressLine1 := s.standardized_address.address_line_1
    postalCode := s.standardized_address.postal_code
    status := "Active"
    country := "USA"
    stateCode := if s.state_code.getD "" ≠ "" then s.state_code.getD "" else s.standardized_address.state_code
    city := s.standardized_address.city
    premiseOccupancy :=
      match s.selected_occupancy_type with
      | some o => o.occupancy_type_name
      | none => ""
    latitude :=
      match s.latitude with
      | some v => if v = 0 then none else some v
      | none => none
    longitude :=
      match s.longitude with
      | some v => if v = 0 then none else some v
      | none => none
    countryShort := "US"
    metaConfidence := s.confidence_score
    metaDupChecked := s.confidence_score.isSome }

def format_output_node (s : PremiseState) : PremiseState :=
  { s with
      output_row := some (mkOutputRow s)
      next_step := "verify_output"
      error_message := none }

/-! ### Output verification (`verify_output_node`) -/

/-- Required-field check: Python `not value or str(value).strip() == ''`,
i.e. violated exactly when the stripped value is empty.  For the coordinate
cells, `none` encodes the empty string and `some v` the nonempty `str(v)`. -/
def requiredErrors (r : OutputRow) : List String :=
  (if pyStrip r.premiseName = "" then ["Missing required field: Premise Name"] else []) ++
  (if pyStrip r.addressLine1 = "" then ["Missing required field: Address Line 1"] else []) ++
  (if pyStrip r.city = "" then ["Missing required field: City"] else []) ++
  (if pyStrip r.stateCode = "" then ["Missing required field: State"] else []) ++
  (if pyStrip r.postalCode = "" then ["Missing required field: Postal Code"] else []) ++
  (if pyStrip r.status = "" then ["Missing required field: Status"] else []) ++
  (if r.latitude = none then ["Missing required field: Latitude"] else []) ++
  (if r.longitude = none then ["Missing required field: Longitude"] else []) ++
  (if pyStrip r.premiseOccupancy = "" then ["Missing required field: Premise Occupancy"] else [])

/-- Coordinate checks: `float(...)` on an empty cell raises, collected as a
single message; otherwise the range and (0, 0)-sentinel checks run. -/
def coordErrors (r : OutputRow) : List String :=
  match r.latitude, r.longitude with
  | some la, some lo =>
    (if ¬(-90 ≤ la ∧ la ≤ 90) then
        ["Invalid latitude: " ++ toString la ++ " (must be -90 to 90)"] else []) ++
    (if ¬(-180 ≤ lo ∧ lo ≤ 180) then
        ["Invalid longitude: " ++ toString lo ++ " (must be -180 to 180)"] else []) ++
    (if la = 0 ∧ lo = 0 then ["Coordinates are 0,0 (likely invalid)"] else [])
  | _, _ => ["Latitude/Longitude must be valid numbers"]

def stateErrors (r : OutputRow) : List String :=
  if r.stateCode ≠ "" && !pyMatchState r.stateCode then
    ["Invalid state code: " ++ r.stateCode ++ " (must be 2 uppercase letters)"]
  else []

def zipErrors (r : OutputRow) : List String :=
  if r.postalCode ≠ "" && !pyMatchZip r.postalCode then
    ["Invalid postal code format: " ++ r.postalCode]
  else []

def statusErrors (r : OutputRow) : List String :=
  if r.status ≠ "Active" && r.status ≠ "Inactive" then
    ["Invalid status: " ++ r.status ++ " (must be 'Active' or 'Inactive')"]
  else []

def countryErrors (r : OutputRow) : List String :=
  (if r.country ≠ "" && r.country ≠ "USA" then
      ["Invalid country: " ++ r.country ++ " (must be 'USA')"] else []) ++
  (if r.countryShort ≠ "" && r.countryShort ≠ "US" then
      ["Invalid country short name: " ++ r.countryShort ++ " (must be 'US')"] else [])

/-- The full collected (never short-circuited) violation list, in rule order. -/
def validationErrorsOf (r : OutputRow) : List String :=
  requiredErrors r ++ coordErrors r ++ stateErrors r ++ zipErrors r ++
    statusErrors r ++ countryErrors r

/-- `verify_output_node`.  The node always runs after `format_output` set
`output_row`; on the unreachable `none` the Python code would raise
(`None.get`), modelled as the unchanged state. -/
def verify_output_node (s : PremiseState) : PremiseState :=
  match s.output_row with
  | none => s
  | some r =>
    let errs := validationErrorsOf r
    if errs ≠ [] then
      { s with
          verification_passed := false
          validation_errors := errs
          next_step := "error_handler"
          error_message := some ("Output validation failed: " ++ String.intercalate "; " errs) }
    else
      { s with
          successful_rows := s.successful_rows ++ [r]
          verification_passed := true
          validation_errors := []
          next_step := "next_row"
          error_message := none }

/-! ### Terminal-disposition and loop nodes -/

def error_handler_node (s : PremiseState) : PremiseState :=
  { s with
      error_rows := s.error_rows ++ [⟨s.current_row, s.error_message.getD "Unknown error"⟩]
      next_step := "next_row"
      error_message := none }

def next_row_node (s : PremiseState) : PremiseState :=
  { s with
      current_row_index := s.current_row_index + 1
      current_row := emptyRow
      places_result := none
      places_found := false
      existing_premises := []
      confidence_score := none
      matched_premise_id := none
      next_step := "parse_row"
      error_message := none }

/-- `write_output_node`: persists the three accumulators (file I/O not
modelled) and terminates. -/
def write_output_node (s : PremiseState) : PremiseState :=
  { s with next_step := "END", error_message := none }

/-! ### Routers and graph wiring (`routers.py`, `orchestrator.py`) -/

inductive Node
  | parseRow | placesSearch | errorHandler | standardizeStep | databaseQuery
  | confidenceScoring | logDuplicate | occupancyClassification | formatOutput
  | verifyOutput | nextRow | writeOutput | finished
deriving Repr, DecidableEq

def route_after_parse (s : PremiseState) : Node :=
  if s.next_step == "write_output" then .writeOutput else .placesSearch

def route_after_places (s : PremiseState) : Node :=
  if s.next_step == "standardize" then .standardizeStep else .errorHandler

def route_after_database (s : PremiseState) : Node :=
  if s.next_step == "confidence_scoring" then .confidenceScoring else .occupancyClassification

def route_after_confidence (s : PremiseState) : Node :=
  if s.next_step == "log_duplicate" then .logDuplicate else .occupancyClassification

def route_after_verify (s : PremiseState) : Node :=
  if s.next_step == "next_row" then .nextRow else .errorHandler

/-- `route_next_row`: runs on the state `next_row_node` already updated and
increments the index once more before comparing against the row count. -/
def route_next_row (s : PremiseState) : Node :=
  if s.current_row_index + 1 < s.csv_rows.length then .parseRow else .writeOutput

/-- One LangGraph step: execute the node, merge its update, then follow the
(conditional or fixed) outgoing edge of `create_premises_graph`. -/
def stepGraph (env : Env) : Node → PremiseState → Node × PremiseState
  | .parseRow, s => let t := parse_row_node s; (route_after_parse t, t)
  | .placesSearch, s => let t := places_search_node env s; (route_after_places t, t)
  | .errorHandler, s => (.nextRow, error_handler_node s)
  | .standardizeStep, s => (.databaseQuery, standardize_node s)
  | .databaseQuery, s => let t := database_query_node env s; (route_after_database t, t)
  | .confidenceScoring, s => let t := confidence_scoring_node env s; (route_after_confidence t, t)
  | .logDuplicate, s => (.nextRow, log_duplicate_node s)
  | .occupancyClassification, s => (.formatOutput, occupancy_classification_node env s)
  | .formatOutput, s => (.verifyOutput, format_output_node s)
  | .verifyOutput, s => let t := verify_output_node s; (route_after_verify t, t)
  | .nextRow, s => let t := next_row_node s; (route_next_row t, t)
  | .writeOutput, s => (.finished, write_output_node s)
  | .finished, s => (.finished, s)

/-- Fuel-bounded run of the graph from a node. -/
def runGraph (env : Env) : Nat → Node → PremiseState → Node × PremiseState
  | 0, n, s => (n, s)
  | fuel + 1, n, s =>
    match n with
    | .finished => (.finished, s)
    | _ =>
      let t := stepGraph env n s
      runGraph env fuel t.1 t.2

/-- Fuel-bounded run until a node satisfying `stop` is reached (checked
before executing it); `none` when fuel runs out first. -/
def runTo (env : Env) (stop : Node → Bool) : Nat → Node → PremiseState → Option (Node × PremiseState)
  | 0, n, s => if stop n then some (n, s) else none
  | fuel + 1, n, s =>
    if stop n then some (n, s)
    else
      let t := stepGraph env n s
      runTo env stop fuel t.1 t.2

/-- The initial state built by `run_premises_processing`. -/
def initState (rows : List RawRow) : PremiseState :=
  { csv_rows := rows
    current_row_index := 0
    current_row := emptyRow
    places_result := none
    places_found := false
    standardized_name := ""
    standardized_address := emptyStdAddress
    latitude := none
    longitude := none
    places_type := none
    existing_premises := []
    duplicate_found := false
    confidence_score := none
    matched_premise_id := none
    state_id := none
    state_code := none
    occupancy_type_options := []
    selected_occupancy_type := none
    output_row := none
    successful_rows := []
    error_rows := []
    duplicate_log := []
    verification_passed := false
    validation_errors := []
    next_step := "parse_row"
    error_message := none }

/-! ### Dict views for claims stated over Python dicts -/

/-- The canonical row as the Python dict `parse_row_node` builds. -/
def rowToDict (r : Row) : RawRow :=
  [("name", r.name), ("address", r.address), ("city", r.city),
   ("state", r.state), ("postal_code", r.postal_code)]

/-- The error entry as the Python dict `{**current_row, 'error_reason': m}`. -/
def errorEntryDict (e : ErrorEntry) : RawRow :=
  rowToDict e.row ++ [("error_reason", e.error_reason)]

/-- Python dict equality for association lists with unique keys. -/
def dictEqB (a b : RawRow) : Bool :=
  a.all (fun kv => b.lookup kv.1 == some kv.2) &&
    b.all (fun kv => a.lookup kv.1 == some kv.2)

/-- Does a raw row carry exactly the canonical headers? -/
def canonicalHeadersB (raw : RawRow) : Bool :=
  raw.map Prod.fst == ["name", "address", "city", "state", "postal_code"]

/-! ### Concrete fixtures for witnesses and counterexamples -/

/-- An environment in which every external lookup misses. -/
def envNoHits : Env :=
  { geocode := fun _ _ _ => none
    searchPlace := fun _ _ _ => none
    getStateByCode := fun _ => none
    getStateByName := fun _ => none
    queryPremises := fun _ _ _ _ => []
    occupancyTypesByState := fun _ => []
    scoreConfidence := fun _ _ => 3
    classifyOccupancy := fun _ _ _ => none }

def rawA : RawRow :=
  [("name", "A"), ("address", "1 Main St"), ("city", "Town"), ("state", "CA"), ("postal_code", "12345")]

def rawB : RawRow :=
  [("name", "B"), ("address", "2 Oak Ave"), ("city", "Town"), ("state", "CA"), ("postal_code", "12345")]

/-- A canonical-header row whose name value carries surrounding whitespace. -/
def rawPad : RawRow :=
  [("name", " A "), ("address", "B"), ("city", "C"), ("state", "D"), ("postal_code", "E")]

/-- An output record satisfying every validation rule. -/
def outSample : OutputRow :=
  { premiseName := "Acme Hardware"
    addressLine1 := "1 Main St"
    postalCode := "12345"
    status := "Active"
    country := "USA"
    stateCode := "CA"
    city := "Town"
    premiseOccupancy := "Business"
    latitude := some 40
    longitude := some (-75)
    countryShort := "US"
    metaConfidence := none
    metaDupChecked := false }

/-- A state carrying row-scoped results from a finished row, as it looks
when `next_row_node` runs. -/
def sRowScoped : PremiseState :=
  { initState [] with
      latitude := some 5
      longitude := some 6
      places_type := some "restaurant"
      standardized_name := "Acme"
      standardized_address :=
        { address_line_1 := "1 Main St", city := "Town", state := "California",
          state_code := "CA", postal_code := "12345" }
      selected_occupancy_type := some ⟨1, "Business"⟩
      output_row := some outSample
      verification_passed := true
      validation_errors := ["x"] }

/-! ### C1 — accumulator total vs. input row count -/

/-- Claim C1 (code bug): on a two-row input the run reaches `write_output`
with the three accumulators holding one entry in total, not two.
`next_row_node` has already incremented `current_row_index`, and
`route_next_row` — which LangGraph evaluates on the node's updated state,
as every other router in the graph requires — increments it again before
comparing with the row count, so the final row is never parsed. -/
theorem C1_last_row_dropped_two_row_run :
    (runGraph envNoHits 30 .parseRow (initState [rawA, rawB])).1 = .finished ∧
    (initState [rawA, rawB]).csv_rows.length = 2 ∧
    (runGraph envNoHits 30 .parseRow (initState [rawA, rawB])).2.successful_rows.length +
      (runGraph envNoHits 30 .parseRow (initState [rawA, rawB])).2.error_rows.length +
      (runGraph envNoHits 30 .parseRow (initState [rawA, rawB])).2.duplicate_log.length = 1 := by
  decide

/-! ### C2 — the next_row reset -/

/-- Claim C2 counterexample: `next_row_node` leaves `latitude`, `longitude`,
`places_type`, the classification result, the assembled output record and
the validation outcome exactly as they were, none of them restored to the
initial values the claim demands. -/
theorem C2_reset_counterexample :
    (next_row_node sRowScoped).latitude = some 5 ∧
    (next_row_node sRowScoped).longitude = some 6 ∧
    (next_row_node sRowScoped).places_type = some "restaurant" ∧
    (next_row_node sRowScoped).selected_occupancy_type = some ⟨1, "Business"⟩ ∧
    (next_row_node sRowScoped).output_row = some outSample ∧
    (next_row_node sRowScoped).verification_passed = true ∧
    (next_row_node sRowScoped).validation_errors = ["x"] ∧
    (initState []).latitude = none ∧
    (initState []).places_type = none ∧
    (initState []).selected_occupancy_type = none ∧
    (initState []).output_row = none ∧
    (initState []).verification_passed = false ∧
    (initState []).validation_errors = [] := by
  decide

/-- Claim C2 as amended: between rows, `next_row_node` advances the index by
exactly one and preserves the three accumulators and the input rows; it
clears only the current row, the Places result and found flag, the
duplicate-check results and the error message, while `latitude`,
`longitude`, `places_type`, the standardized name/address, the
classification result, the assembled output record and the validation
outcome are left unchanged (each is overwritten downstream before use). -/
theorem C2_reset_frame (s : PremiseState) :
    (next_row_node s).successful_rows = s.successful_rows ∧
    (next_row_node s).error_rows = s.error_rows ∧
    (next_row_node s).duplicate_log = s.duplicate_log ∧
    (next_row_node s).csv_rows = s.csv_rows ∧
    (next_row_node s).current_row_index = s.current_row_index + 1 ∧
    (next_row_node s).current_row = emptyRow ∧
    (next_row_node s).places_result = none ∧
    (next_row_node s).places_found = false ∧
    (next_row_node s).existing_premises = [] ∧
    (next_row_node s).confidence_score = none ∧
    (next_row_node s).matched_premise_id = none ∧
    (next_row_node s).error_message = none ∧
    (next_row_node s).next_step = "parse_row" ∧
    (next_row_node s).latitude = s.latitude ∧
    (next_row_node s).longitude = s.longitude ∧
    (next_row_node s).places_type = s.places_type ∧
    (next_row_node s).standardized_name = s.standardized_name ∧
    (next_row_node s).standardized_address = s.standardized_address ∧
    (next_row_node s).duplicate_found = s.duplicate_found ∧
    (next_row_node s).state_id = s.state_id ∧
    (next_row_node s).state_code = s.state_code ∧
    (next_row_node s).occupancy_type_options = s.occupancy_type_options ∧
    (next_row_node s).selected_occupancy_type = s.selected_occupancy_type ∧
    (next_row_node s).output_row = s.output_row ∧
    (next_row_node s).verification_passed = s.verification_passed ∧
    (next_row_node s).validation_errors = s.validation_errors := by
  and_intros <;> rfl

/-! ### C8 — normalization on canonical rows -/

/-- Claim C8 counterexample: a row with exactly the canonical headers whose
name value has surrounding whitespace is changed by normalization (the
value is stripped), so normalization is not a no-op on it. -/
theorem C8_canonical_not_noop :
    canonicalHeadersB rawPad = true ∧
    dictEqB (rowToDict (normalizeRow rawPad)) rawPad = false := by
  decide

/-- Claim C8 as amended: on a row with exactly the canonical headers,
normalization keeps every field and maps each value to its
whitespace-stripped form — a no-op precisely when no value carries leading
or trailing whitespace. -/
theorem C8_canonical_strips (n a c s p : String) :
    normalizeRow [("name", n), ("address", a), ("city", c), ("state", s), ("postal_code", p)] =
      ⟨pyStrip n, pyStrip a, pyStrip c, pyStrip s, pyStrip p⟩ := rfl

/-! ### C5 — content of error-accumulator entries -/

/-- A raw row whose name arrives under the header `business_name` and whose
address is empty, so the row reaches the error handler. -/
def rawBad : RawRow :=
  [("business_name", " Store "), ("address", ""), ("city", "Town"), ("state", "CA"), ("postal_code", "12345")]

/-- Claim C5 counterexample: the error entry for `rawBad` holds the
normalized fields (canonical key `name`, stripped value `Store`), not the
original raw input fields — as a dict it differs from the raw row plus
`error_reason` (the raw header `business_name` is absent from it). -/
theorem C5_error_entry_counterexample :
    (error_handler_node (places_search_node envNoHits (parse_row_node (initState [rawBad])))).error_rows =
      [⟨⟨"Store", "", "Town", "CA", "12345"⟩, "Incomplete address information"⟩] ∧
    dictEqB
      (errorEntryDict ⟨⟨"Store", "", "Town", "CA", "12345"⟩, "Incomplete address information"⟩)
      (rawBad ++ [("error_reason", "Incomplete address information")]) = false := by
  decide

/-- Claim C5 as amended: the entry appended to the error accumulator
consists of the row's normalized current-row fields (canonical keys with
whitespace-stripped values, as produced by `parse_row_node`) — not the raw
input fields — together with an appended `error_reason` equal to the
reported reason. -/
theorem C5_error_entry_normalized (s : PremiseState) (m : String)
    (h : s.error_message = some m) :
    (error_handler_node s).error_rows = s.error_rows ++ [⟨s.current_row, m⟩] ∧
    errorEntryDict ⟨s.current_row, m⟩ = rowToDict s.current_row ++ [("error_reason", m)] ∧
    (error_handler_node s).next_step = "next_row" := by
  refine ⟨?_, rfl, rfl⟩
  simp [error_handler_node, h]

/-- A state as the error handler sees it after a reported failure. -/
def sErr : PremiseState :=
  { initState [] with
      current_row := ⟨"Store", "", "Town", "CA", "12345"⟩
      error_message := some "boom" }

/-- Witness for `C5_error_entry_normalized` at the concrete state `sErr`. -/
theorem C5_error_entry_normalized_witness :
    (error_handler_node sErr).error_rows = sErr.error_rows ++ [⟨sErr.current_row, "boom"⟩] ∧
    errorEntryDict ⟨sErr.current_row, "boom"⟩ =
      rowToDict sErr.current_row ++ [("error_reason", "boom")] ∧
    (error_handler_node sErr).next_step = "next_row" :=
  C5_error_entry_normalized sErr "boom" rfl

/-! ### C9 — a zero coordinate is treated as absent -/

lemma validationErrors_ne_nil_of_lat_none (r : OutputRow) (h : r.latitude = none) :
    validationErrorsOf r ≠ [] := by
  have hm : "Missing required field: Latitude" ∈ validationErrorsOf r := by
    simp [validationErrorsOf, requiredErrors, h]
  exact List.ne_nil_of_mem hm

lemma validationErrors_ne_nil_of_lng_none (r : OutputRow) (h : r.longitude = none) :
    validationErrorsOf r ≠ [] := by
  have hm : "Missing required field: Longitude" ∈ validationErrorsOf r := by
    simp [validationErrorsOf, requiredErrors, h]
  exact List.ne_nil_of_mem hm

/-- Claim C9: with a latitude or longitude that is zero or `None`, the
spatial records-store query is skipped (no candidates, route to
classification); the formatter emits the empty cell for the zero or
missing coordinate; and the resulting record fails required-field
validation, routing to the error handler without being appended to the
processed accumulator. -/
theorem C9_zero_coordinate_absent (env : Env) (s : PremiseState)
    (h : s.latitude = none ∨ s.latitude = some 0 ∨ s.longitude = none ∨ s.longitude = some 0) :
    (database_query_node env s).existing_premises = [] ∧
    (database_query_node env s).duplicate_found = false ∧
    (database_query_node env s).next_step = "occupancy_classification" ∧
    (format_output_node s).output_row = some (mkOutputRow s) ∧
    ((s.latitude = none ∨ s.latitude = some 0) → (mkOutputRow s).latitude = none) ∧
    ((s.longitude = none ∨ s.longitude = some 0) → (mkOutputRow s).longitude = none) ∧
    validationErrorsOf (mkOutputRow s) ≠ [] ∧
    (verify_output_node (format_output_node s)).verification_passed = false ∧
    (verify_output_node (format_output_node s)).next_step = "error_handler" ∧
    (verify_output_node (format_output_node s)).successful_rows = s.successful_rows := by
  have hlatn : (s.latitude = none ∨ s.latitude = some 0) → (mkOutputRow s).latitude = none := by
    rintro (h1 | h1) <;> simp [mkOutputRow, h1]
  have hlngn : (s.longitude = none ∨ s.longitude = some 0) → (mkOutputRow s).longitude = none := by
    rintro (h1 | h1) <;> simp [mkOutputRow, h1]
  have hv : validationErrorsOf (mkOutputRow s) ≠ [] := by
    rcases h with h1 | h1 | h1 | h1
    · exact validationErrors_ne_nil_of_lat_none _ (hlatn (Or.inl h1))
    · exact validationErrors_ne_nil_of_lat_none _ (hlatn (Or.inr h1))
    · exact validationErrors_ne_nil_of_lng_none _ (hlngn (Or.inl h1))
    · exact validationErrors_ne_nil_of_lng_none _ (hlngn (Or.inr h1))
  have hdb : (database_query_node env s).existing_premises = [] ∧
      (database_query_node env s).duplicate_found = false ∧
      (database_query_node env s).next_step = "occupancy_classification" := by
    rcases hla : s.latitude with _ | la
    · rcases hlo : s.longitude with _ | lo <;> simp [database_query_node, hla, hlo]
    · rcases hlo : s.longitude with _ | lo
      · simp [database_query_node, hla, hlo]
      · have h0 : la = 0 ∨ lo = 0 := by
          rcases h with h1 | h1 | h1 | h1
          · rw [hla] at h1; cases h1
          · rw [hla] at h1; exact Or.inl (Option.some.inj h1)
          · rw [hlo] at h1; cases h1
          · rw [hlo] at h1; exact Or.inr (Option.some.inj h1)
        rcases h0 with h0 | h0 <;> subst h0 <;> simp [database_query_node, hla, hlo]
  have hverify : (verify_output_node (format_output_node s)).verification_passed = false ∧
      (verify_output_node (format_output_node s)).next_step = "error_handler" ∧
      (verify_output_node (format_output_node s)).successful_rows = s.successful_rows := by
    simp [verify_output_node, format_output_node, hv]
  exact ⟨hdb.1, hdb.2.1, hdb.2.2, rfl, hlatn, hlngn, hv, hverify.1, hverify.2.1, hverify.2.2⟩

/-- A state with a resolved latitude of exactly zero. -/
def sZeroLat : PremiseState :=
  { initState [] with latitude := some 0, longitude := some 5 }

/-- Witness for `C9_zero_coordinate_absent` at `sZeroLat`. -/
theorem C9_zero_coordinate_absent_witness :
    (database_query_node envNoHits sZeroLat).existing_premises = [] ∧
    (database_query_node envNoHits sZeroLat).duplicate_found = false ∧
    (database_query_node envNoHits sZeroLat).next_step = "occupancy_classification" ∧
    (format_output_node sZeroLat).output_row = some (mkOutputRow sZeroLat) ∧
    ((sZeroLat.latitude = none ∨ sZeroLat.latitude = some 0) → (mkOutputRow sZeroLat).latitude = none) ∧
    ((sZeroLat.longitude = none ∨ sZeroLat.longitude = some 0) → (mkOutputRow sZeroLat).longitude = none) ∧
    validationErrorsOf (mkOutputRow sZeroLat) ≠ [] ∧
    (verify_output_node (format_output_node sZeroLat)).verification_passed = false ∧
    (verify_output_node (format_output_node sZeroLat)).next_step = "error_handler" ∧
    (verify_output_node (format_output_node sZeroLat)).successful_rows = sZeroLat.successful_rows :=
  C9_zero_coordinate_absent envNoHits sZeroLat (Or.inr (Or.inl rfl))

/-! ### C4 — the output-validation gate -/

/-- The conjunction of all §4.6 validation rules, as the claim states them:
required fields non-empty, latitude/longitude present with the coordinate
ranges and the (0, 0) sentinel excluded, two-capital state code, ZIP-shaped
postal code, and status Active/Inactive. -/
def passesAllRules (r : OutputRow) : Prop :=
  pyStrip r.premiseName ≠ "" ∧ pyStrip r.addressLine1 ≠ "" ∧ pyStrip r.city ≠ "" ∧
  pyStrip r.stateCode ≠ "" ∧ pyStrip r.postalCode ≠ "" ∧ pyStrip r.status ≠ "" ∧
  pyStrip r.premiseOccupancy ≠ "" ∧
  (∃ la lo, r.latitude = some la ∧ r.longitude = some lo ∧
    -90 ≤ la ∧ la ≤ 90 ∧ -180 ≤ lo ∧ lo ≤ 180 ∧ ¬(la = 0 ∧ lo = 0)) ∧
  pyMatchState r.stateCode = true ∧ pyMatchZip r.postalCode = true ∧
  (r.status = "Active" ∨ r.status = "Inactive")

lemma req_name (r : OutputRow) (h : requiredErrors r = []) : pyStrip r.premiseName ≠ "" := by
  intro hc; simp [requiredErrors, hc] at h

lemma req_addr (r : OutputRow) (h : requiredErrors r = []) : pyStrip r.addressLine1 ≠ "" := by
  intro hc; simp [requiredErrors, hc] at h

lemma req_city (r : OutputRow) (h : requiredErrors r = []) : pyStrip r.city ≠ "" := by
  intro hc; simp [requiredErrors, hc] at h

lemma req_state (r : OutputRow) (h : requiredErrors r = []) : pyStrip r.stateCode ≠ "" := by
  intro hc; simp [requiredErrors, hc] at h

lemma req_zip (r : OutputRow) (h : requiredErrors r = []) : pyStrip r.postalCode ≠ "" := by
  intro hc; simp [requiredErrors, hc] at h

lemma req_status (r : OutputRow) (h : requiredErrors r = []) : pyStrip r.status ≠ "" := by
  intro hc; simp [requiredErrors, hc] at h

lemma req_occ (r : OutputRow) (h : requiredErrors r = []) : pyStrip r.premiseOccupancy ≠ "" := by
  intro hc; simp [requiredErrors, hc] at h

lemma coord_facts (r : OutputRow) (h : coordErrors r = []) :
    ∃ la lo, r.latitude = some la ∧ r.longitude = some lo ∧
      -90 ≤ la ∧ la ≤ 90 ∧ -180 ≤ lo ∧ lo ≤ 180 ∧ ¬(la = 0 ∧ lo = 0) := by
  rcases hla : r.latitude with _ | la
  · simp [coordErrors, hla] at h
  · rcases hlo : r.longitude with _ | lo
    · simp [coordErrors, hla, hlo] at h
    · simp [coordErrors, hla, hlo] at h
      exact ⟨la, lo, rfl, rfl, h.1.1, h.1.2, h.2.1.1, h.2.1.2, fun hc => h.2.2 hc.1 hc.2⟩

lemma state_fact (r : OutputRow) (h : stateErrors r = []) (hne : r.stateCode ≠ "") :
    pyMatchState r.stateCode = true := by
  by_cases hm : pyMatchState r.stateCode = true
  · exact hm
  · simp only [Bool.not_eq_true] at hm
    simp [stateErrors, hne, hm] at h

lemma zip_fact (r : OutputRow) (h : zipErrors r = []) (hne : r.postalCode ≠ "") :
    pyMatchZip r.postalCode = true := by
  by_cases hm : pyMatchZip r.postalCode = true
  · exact hm
  · simp only [Bool.not_eq_true] at hm
    simp [zipErrors, hne, hm] at h

lemma status_fact (r : OutputRow) (h : statusErrors r = []) :
    r.status = "Active" ∨ r.status = "Inactive" := by
  by_cases h1 : r.status = "Active"
  · exact Or.inl h1
  · by_cases h2 : r.status = "Inactive"
    · exact Or.inr h2
    · simp [statusErrors, h1, h2] at h

/-- Claim C4: `verify_output_node` appends the pending record to the
processed accumulator exactly when its collected violation list is empty;
a record it appends satisfies every validation rule (required fields,
coordinate ranges with the (0, 0) sentinel, state-code and ZIP shape,
status); and on any violation the row routes to the error handler with the
accumulator untouched. -/
theorem C4_verify_gate (s : PremiseState) (r : OutputRow) (h : s.output_row = some r) :
    ((verify_output_node s).successful_rows = s.successful_rows ++ [r] ↔ validationErrorsOf r = []) ∧
    (validationErrorsOf r = [] →
      passesAllRules r ∧ (verify_output_node s).next_step = "next_row" ∧
      (verify_output_node s).verification_passed = true) ∧
    (validationErrorsOf r ≠ [] →
      (verify_output_node s).successful_rows = s.successful_rows ∧
      (verify_output_node s).next_step = "error_handler" ∧
      (verify_output_node s).verification_passed = false) := by
  by_cases he : validationErrorsOf r = []
  · have hsplit : requiredErrors r = [] ∧ coordErrors r = [] ∧ stateErrors r = [] ∧
        zipErrors r = [] ∧ statusErrors r = [] ∧ countryErrors r = [] := by
      simpa [validationErrorsOf, List.append_eq_nil] using he
    obtain ⟨hreq, hcoord, hstate, hzip, hstatus, hcountry⟩ := hsplit
    have hsne : r.stateCode ≠ "" := fun hc => req_state r hreq (by rw [hc]; rfl)
    have hzne : r.postalCode ≠ "" := fun hc => req_zip r hreq (by rw [hc]; rfl)
    have hpass : passesAllRules r :=
      ⟨req_name r hreq, req_addr r hreq, req_city r hreq, req_state r hreq,
       req_zip r hreq, req_status r hreq, req_occ r hreq, coord_facts r hcoord,
       state_fact r hstate hsne, zip_fact r hzip hzne, status_fact r hstatus⟩
    have hsucc : (verify_output_node s).successful_rows = s.successful_rows ++ [r] := by
      simp [verify_output_node, h, he]
    have hns : (verify_output_node s).next_step = "next_row" := by
      simp [verify_output_node, h, he]
    have hvp : (verify_output_node s).verification_passed = true := by
      simp [verify_output_node, h, he]
    exact ⟨⟨fun _ => he, fun _ => hsucc⟩, fun _ => ⟨hpass, hns, hvp⟩, fun hne => absurd he hne⟩
  · have hsucc : (verify_output_node s).successful_rows = s.successful_rows := by
      simp [verify_output_node, h, he]
    have hns : (verify_output_node s).next_step = "error_handler" := by
      simp [verify_output_node, h, he]
    have hvp : (verify_output_node s).verification_passed = false := by
      simp [verify_output_node, h, he]
    refine ⟨⟨fun hcc => ?_, fun hcc => absurd hcc he⟩, fun hcc => absurd hcc he,
      fun _ => ⟨hsucc, hns, hvp⟩⟩
    rw [hsucc] at hcc
    have hlen := congrArg List.length hcc
    simp at hlen

/-- Witness for `C4_verify_gate`: the valid record `outSample` is appended,
and it satisfies every rule. -/
theorem C4_verify_gate_witness :
    ((verify_output_node { initState [] with output_row := some outSample }).successful_rows =
        (initState []).successful_rows ++ [outSample] ↔ validationErrorsOf outSample = []) ∧
    passesAllRules outSample :=
  ⟨(C4_verify_gate { initState [] with output_row := some outSample } outSample rfl).1,
   ((C4_verify_gate { initState [] with output_row := some outSample } outSample rfl).2.1
      (by decide)).1⟩

/-! ### Shared branch analysis of `places_search_node` -/

lemma places_route (env : Env) (s : PremiseState)
    (h : (places_search_node env s).next_step = "standardize") :
    (places_search_node env s).places_found = true ∧
    ∃ r, (places_search_node env s).places_result = some r := by
  by_cases ha : s.current_row.address = ""
  · simp [places_search_node, ha] at h
  by_cases hc : s.current_row.city = ""
  · simp [places_search_node, ha, hc] at h
  by_cases hs : pyUpper s.current_row.state = ""
  · simp [places_search_node, ha, hc, hs] at h
  by_cases hv : pyUpper s.current_row.state ∈ validStateCodes
  case neg => simp [places_search_node, ha, hc, hs, hv] at h
  rcases hg : env.geocode s.current_row.address s.current_row.city (pyUpper s.current_row.state)
    with _ | g
  · simp [places_search_node, ha, hc, hs, hv, hg] at h
  rcases hr : filterByDistance g
      (env.searchPlace (placesQuery s.current_row (pyUpper s.current_row.state)) g.latitude g.longitude)
    with _ | r
  · refine ⟨?_, syntheticPlace s.current_row.name g, ?_⟩ <;>
      simp [places_search_node, ha, hc, hs, hv, hg, hr, syntheticUpdate]
  · by_cases ht : ¬r.types = [] ∧ ∀ x ∈ r.types, x ∈ nonBusinessTypes
    · have hsub := eq_true ht.2
      refine ⟨?_, syntheticPlace s.current_row.name g, ?_⟩ <;>
        simp [places_search_node, ha, hc, hs, hv, hg, hr, ht, hsub, syntheticUpdate]
    · refine ⟨?_, r, ?_⟩ <;>
        simp [places_search_node, ha, hc, hs, hv, hg, hr, ht]

lemma standardize_of_found (t : PremiseState) (hf : t.places_found = true)
    (r : PlaceResult) (hr : t.places_result = some r) :
    standardize_node t =
      { t with
          standardized_name := (standardizeFromPlaces r t.current_row).1
          standardized_address := (standardizeFromPlaces r t.current_row).2
          next_step := "database_query"
          error_message := none } := by
  simp [standardize_node, hf, hr]

lemma places_standardize_of_geocode (env : Env) (s : PremiseState) (g : GeoResult)
    (ha : ¬s.current_row.address = "") (hc : ¬s.current_row.city = "")
    (hs : ¬pyUpper s.current_row.state = "") (hv : pyUpper s.current_row.state ∈ validStateCodes)
    (hg : env.geocode s.current_row.address s.current_row.city (pyUpper s.current_row.state) = some g) :
    (places_search_node env s).next_step = "standardize" := by
  rcases hr : filterByDistance g
      (env.searchPlace (placesQuery s.current_row (pyUpper s.current_row.state)) g.latitude g.longitude)
    with _ | r
  · simp [places_search_node, ha, hc, hs, hv, hg, hr, syntheticUpdate]
  · by_cases ht : ¬r.types = [] ∧ ∀ x ∈ r.types, x ∈ nonBusinessTypes
    · have hsub := eq_true ht.2
      simp [places_search_node, ha, hc, hs, hv, hg, hr, ht, hsub, syntheticUpdate]
    · simp [places_search_node, ha, hc, hs, hv, hg, hr, ht]

/-! ### C10 — the standardizer's fallback branch is unreachable after places_search -/

/-- Claim C10: whenever `places_search_node` routes to standardization it
sets the found flag and supplies a result, so `standardize_node` on the
produced state takes the Places branch (`standardizeFromPlaces`) — never
the title-casing fallback. -/
theorem C10_standardize_uses_places (env : Env) (s : PremiseState)
    (h : (places_search_node env s).next_step = "standardize") :
    (places_search_node env s).places_found = true ∧
    ∃ r, (places_search_node env s).places_result = some r ∧
      standardize_node (places_search_node env s) =
        { (places_search_node env s) with
            standardized_name := (standardizeFromPlaces r (places_search_node env s).current_row).1
            standardized_address := (standardizeFromPlaces r (places_search_node env s).current_row).2
            next_step := "database_query"
            error_message := none } := by
  obtain ⟨hf, r, hr⟩ := places_route env s h
  exact ⟨hf, r, hr, standardize_of_found _ hf r hr⟩

/-! ### C6 — identity-resolution precondition errors -/

/-- Claim C6: empty address/city/state is rejected with the incomplete-
information message and an invalid state code with the invalid-code
message, in both cases independently of any collaborator (no external call
influences the result); once the preconditions hold, a geocode miss is the
only condition routing to the error handler, with the address-not-found
message. -/
theorem C6_precondition_errors (env env2 : Env) (s : PremiseState) :
    ((s.current_row.address = "" ∨ s.current_row.city = "" ∨ pyUpper s.current_row.state = "") →
      (places_search_node env s).next_step = "error_handler" ∧
      (places_search_node env s).error_message = some "Incomplete address information" ∧
      places_search_node env2 s = places_search_node env s) ∧
    ((¬s.current_row.address = "" ∧ ¬s.current_row.city = "" ∧ ¬pyUpper s.current_row.state = "" ∧
        pyUpper s.current_row.state ∉ validStateCodes) →
      (places_search_node env s).next_step = "error_handler" ∧
      (places_search_node env s).error_message =
        some ("Invalid US state code: " ++ pyUpper s.current_row.state) ∧
      places_search_node env2 s = places_search_node env s) ∧
    ((¬s.current_row.address = "" ∧ ¬s.current_row.city = "" ∧ ¬pyUpper s.current_row.state = "" ∧
        pyUpper s.current_row.state ∈ validStateCodes) →
      ((places_search_node env s).next_step = "error_handler" ↔
        env.geocode s.current_row.address s.current_row.city (pyUpper s.current_row.state) = none) ∧
      (env.geocode s.current_row.address s.current_row.city (pyUpper s.current_row.state) = none →
        (places_search_node env s).error_message =
          some ("Address not found: " ++ s.current_row.address ++ ", " ++ s.current_row.city ++ ", " ++
            pyUpper s.current_row.state))) := by
  refine ⟨?_, ?_, ?_⟩
  · rintro (h1 | h1 | h1) <;>
      exact ⟨by simp [places_search_node, h1], by simp [places_search_node, h1],
        by simp [places_search_node, h1]⟩
  · rintro ⟨ha, hc, hs, hv⟩
    exact ⟨by simp [places_search_node, ha, hc, hs, hv],
      by simp [places_search_node, ha, hc, hs, hv],
      by simp [places_search_node, ha, hc, hs, hv]⟩
  · rintro ⟨ha, hc, hs, hv⟩
    constructor
    · rcases hg : env.geocode s.current_row.address s.current_row.city (pyUpper s.current_row.state)
        with _ | g
      · simp [places_search_node, ha, hc, hs, hv, hg]
      · have hns := places_standardize_of_geocode env s g ha hc hs hv hg
        rw [hns]
        simp [hg]
    · intro hgn
      simp [places_search_node, ha, hc, hs, hv, hgn]

/-- A state whose current row is missing the address. -/
def sIncomplete : PremiseState :=
  { initState [] with current_row := ⟨"A", "", "Town", "CA", "12345"⟩ }

/-- Witness for `C6_precondition_errors` at `sIncomplete`. -/
theorem C6_precondition_errors_witness :
    (places_search_node envNoHits sIncomplete).next_step = "error_handler" ∧
    (places_search_node envNoHits sIncomplete).error_message =
      some "Incomplete address information" ∧
    places_search_node envNoHits sIncomplete = places_search_node envNoHits sIncomplete :=
  (C6_precondition_errors envNoHits envNoHits sIncomplete).1 (Or.inl rfl)

/-! ### C7 — fallback to the synthetic address-only result -/

/-- The geocoded point and candidate used by the C7 counterexample. -/
def geoC7 : GeoResult := ⟨1, 1, "1 Main St, Town, CA", []⟩

/-- A far-away candidate whose latitude is exactly zero, so the Python
truthiness guard skips the distance check. -/
def candC7 : PlaceResult := ⟨"BigCo", "far away", some 0, some 10, ["restaurant"], []⟩

def envC7 : Env :=
  { envNoHits with geocode := fun _ _ _ => some geoC7, searchPlace := fun _ _ _ => some candC7 }

def sC7 : PremiseState :=
  { initState [] with current_row := ⟨"BigCo", "1 Main St", "Town", "CA", "12345"⟩ }

/-- Claim C7 counterexample: the candidate `candC7` sits far beyond 0.05
degrees from the geocoded point (squared distance `82 > 0.05²`), yet
because its latitude is `0` the code keeps it — `places_result` is the
candidate with type `restaurant`, not the synthetic `premise` fallback the
claim requires for every too-far candidate. -/
theorem C7_distance_counterexample :
    ((0 : Rat) - geoC7.latitude) * ((0 : Rat) - geoC7.latitude) +
      ((10 : Rat) - geoC7.longitude) * ((10 : Rat) - geoC7.longitude) > 1 / 400 ∧
    envC7.geocode sC7.current_row.address sC7.current_row.city "CA" = some geoC7 ∧
    envC7.searchPlace (placesQuery sC7.current_row "CA") geoC7.latitude geoC7.longitude = some candC7 ∧
    candC7.latitude = some 0 ∧ candC7.longitude = some 10 ∧
    (places_search_node envC7 sC7).places_result = some candC7 ∧
    (places_search_node envC7 sC7).places_type = some "restaurant" ∧
    places_search_node envC7 sC7 ≠ syntheticUpdate sC7 sC7.current_row.name geoC7 := by
  refine ⟨by norm_num [geoC7], rfl, rfl, rfl, rfl, ?_, ?_, ?_⟩ <;> decide

/-- Claim C7 as amended: once geocoding succeeds (preconditions holding),
`places_search_node` never routes to the error handler; when the search
returns no candidate, or returns a candidate whose coordinates are both
present and nonzero with squared planar distance beyond `0.05²`, the
candidate is discarded and the synthetic address-only result
(`syntheticUpdate`: user's name, geocoded formatted address and
coordinates, type `premise`, found flag set, route to standardization) is
produced.  A candidate with a missing or zero coordinate skips the
distance check. -/
theorem C7_geocode_fallback (env : Env) (s : PremiseState) (g : GeoResult)
    (ha : ¬s.current_row.address = "") (hc : ¬s.current_row.city = "")
    (hs : ¬pyUpper s.current_row.state = "") (hv : pyUpper s.current_row.state ∈ validStateCodes)
    (hg : env.geocode s.current_row.address s.current_row.city (pyUpper s.current_row.state) = some g) :
    (places_search_node env s).next_step = "standardize" ∧
    (env.searchPlace (placesQuery s.current_row (pyUpper s.current_row.state)) g.latitude g.longitude = none →
      places_search_node env s = syntheticUpdate s s.current_row.name g) ∧
    (∀ r pla plo,
      env.searchPlace (placesQuery s.current_row (pyUpper s.current_row.state)) g.latitude g.longitude = some r →
      r.latitude = some pla → r.longitude = some plo → ¬pla = 0 → ¬plo = 0 →
      (pla - g.latitude) * (pla - g.latitude) + (plo - g.longitude) * (plo - g.longitude) > 1 / 400 →
      places_search_node env s = syntheticUpdate s s.current_row.name g) := by
  refine ⟨places_standardize_of_geocode env s g ha hc hs hv hg, ?_, ?_⟩
  · intro hsn
    simp [places_search_node, ha, hc, hs, hv, hg, hsn, filterByDistance]
  · intro r pla plo hsr hla hlo hp0 hq0 hd
    have hfd : filterByDistance g (some r) = none := by
      rw [one_div] at hd
      simp [filterByDistance, hla, hlo, hp0, hq0, hd]
    simp [places_search_node, ha, hc, hs, hv, hg, hsr, hfd]

/-- An environment that geocodes to `geoC7` but finds no place candidate. -/
def envC7b : Env := { envNoHits with geocode := fun _ _ _ => some geoC7 }

/-- Witness for `C7_geocode_fallback`: with no candidate, the synthetic
result is produced and the row routes to standardization. -/
theorem C7_geocode_fallback_witness :
    (places_search_node envC7b sC7).next_step = "standardize" ∧
    places_search_node envC7b sC7 = syntheticUpdate sC7 sC7.current_row.name geoC7 :=
  ⟨(C7_geocode_fallback envC7b sC7 geoC7 (by decide) (by decide) (by decide) (by decide) rfl).1,
   (C7_geocode_fallback envC7b sC7 geoC7 (by decide) (by decide) (by decide) (by decide) rfl).2.1 rfl⟩

/-- Witness for `C10_standardize_uses_places` at the synthetic-fallback run. -/
theorem C10_standardize_uses_places_witness :
    (places_search_node envC7b sC7).places_found = true ∧
    ∃ r, (places_search_node envC7b sC7).places_result = some r ∧
      standardize_node (places_search_node envC7b sC7) =
        { (places_search_node envC7b sC7) with
            standardized_name := (standardizeFromPlaces r (places_search_node envC7b sC7).current_row).1
            standardized_address := (standardizeFromPlaces r (places_search_node envC7b sC7).current_row).2
            next_step := "database_query"
            error_message := none } :=
  C10_standardize_uses_places envC7b sC7 (by decide)

/-! ### C3 — the confidence threshold and the duplicate log -/

/-- Does the run sit at the `next_row` node? -/
def isNextRow : Node → Bool
  | .nextRow => true
  | _ => false

lemma runTo_hit (env : Env) (stop : Node → Bool) (f : Nat) (n : Node) (s : PremiseState)
    (h : stop n = true) : runTo env stop f n s = some (n, s) := by
  cases f <;> simp [runTo, h]

lemma runTo_not_stop (env : Env) (stop : Node → Bool) (f : Nat) (n : Node) (s : PremiseState)
    (h : stop n = false) :
    runTo env stop (f + 1) n s = runTo env stop f (stepGraph env n s).1 (stepGraph env n s).2 := by
  simp [runTo, h]

lemma occ_dup (env : Env) (s : PremiseState) :
    (occupancy_classification_node env s).duplicate_log = s.duplicate_log := by
  simp only [occupancy_classification_node]
  split <;> first | rfl | (split <;> rfl)

lemma occ_trace (env : Env) (s1 : PremiseState) :
    ∃ n2 s2, runTo env isNextRow 7 Node.occupancyClassification s1 = some (n2, s2) ∧
      s2.duplicate_log = s1.duplicate_log := by
  obtain ⟨s2, hs2⟩ : ∃ x, occupancy_classification_node env s1 = x := ⟨_, rfl⟩
  have hdup2 : s2.duplicate_log = s1.duplicate_log := hs2 ▸ occ_dup env s1
  obtain ⟨s3, hs3⟩ : ∃ x, format_output_node s2 = x := ⟨_, rfl⟩
  have hdup3 : s3.duplicate_log = s2.duplicate_log := by rw [← hs3]; rfl
  have hout : s3.output_row = some (mkOutputRow s2) := by rw [← hs3]; rfl
  have e1 : runTo env isNextRow 7 Node.occupancyClassification s1 =
      runTo env isNextRow 6 Node.formatOutput s2 := by
    show runTo env isNextRow (6 + 1) Node.occupancyClassification s1 = _
    rw [runTo_not_stop env isNextRow 6 Node.occupancyClassification s1 rfl]
    show runTo env isNextRow 6 Node.formatOutput (occupancy_classification_node env s1) = _
    rw [hs2]
  have e2 : runTo env isNextRow 6 Node.formatOutput s2 =
      runTo env isNextRow 5 Node.verifyOutput s3 := by
    show runTo env isNextRow (5 + 1) Node.formatOutput s2 = _
    rw [runTo_not_stop env isNextRow 5 Node.formatOutput s2 rfl]
    show runTo env isNextRow 5 Node.verifyOutput (format_output_node s2) = _
    rw [hs3]
  by_cases herr : validationErrorsOf (mkOutputRow s2) = []
  · have htv : verify_output_node s3 = { s3 with
        successful_rows := s3.successful_rows ++ [mkOutputRow s2]
        verification_passed := true
        validation_errors := []
        next_step := "next_row"
        error_message := none } := by
      simp [verify_output_node, hout, herr]
    have hroute : route_after_verify (verify_output_node s3) = Node.nextRow := by
      rw [htv]; simp [route_after_verify]
    have e3 : runTo env isNextRow 5 Node.verifyOutput s3 =
        some (Node.nextRow, verify_output_node s3) := by
      show runTo env isNextRow (4 + 1) Node.verifyOutput s3 = _
      rw [runTo_not_stop env isNextRow 4 Node.verifyOutput s3 rfl]
      show runTo env isNextRow 4 (route_after_verify (verify_output_node s3))
        (verify_output_node s3) = _
      rw [hroute]
      exact runTo_hit env isNextRow 4 Node.nextRow _ rfl
    refine ⟨Node.nextRow, verify_output_node s3, by rw [e1, e2, e3], ?_⟩
    rw [htv]
    show s3.duplicate_log = s1.duplicate_log
    rw [hdup3, hdup2]
  · have htv : verify_output_node s3 = { s3 with
        verification_passed := false
        validation_errors := validationErrorsOf (mkOutputRow s2)
        next_step := "error_handler"
        error_message := some ("Output validation failed: " ++
          String.intercalate "; " (validationErrorsOf (mkOutputRow s2))) } := by
      simp [verify_output_node, hout, herr]
    have hroute : route_after_verify (verify_output_node s3) = Node.errorHandler := by
      rw [htv]; simp [route_after_verify]
    have e3 : runTo env isNextRow 5 Node.verifyOutput s3 =
        runTo env isNextRow 4 Node.errorHandler (verify_output_node s3) := by
      show runTo env isNextRow (4 + 1) Node.verifyOutput s3 = _
      rw [runTo_not_stop env isNextRow 4 Node.verifyOutput s3 rfl]
      show runTo env isNextRow 4 (route_after_verify (verify_output_node s3))
        (verify_output_node s3) = _
      rw [hroute]
    have e4 : runTo env isNextRow 4 Node.errorHandler (verify_output_node s3) =
        some (Node.nextRow, error_handler_node (verify_output_node s3)) := by
      show runTo env isNextRow (3 + 1) Node.errorHandler (verify_output_node s3) = _
      rw [runTo_not_stop env isNextRow 3 Node.errorHandler (verify_output_node s3) rfl]
      show runTo env isNextRow 3 Node.nextRow (error_handler_node (verify_output_node s3)) = _
      exact runTo_hit env isNextRow 3 Node.nextRow _ rfl
    refine ⟨Node.nextRow, error_handler_node (verify_output_node s3), by rw [e1, e2, e3, e4], ?_⟩
    show (verify_output_node s3).duplicate_log = s1.duplicate_log
    rw [htv]
    show s3.duplicate_log = s1.duplicate_log
    rw [hdup3, hdup2]


/-- Claim C3: from confidence scoring with a non-empty candidate list, a
score of at least 8 routes to duplicate logging — the run reaches the end
of the row with exactly one entry appended to the duplicate log and the
processed accumulator untouched — while a score below 8 routes onward to
occupancy classification; with a score below 8, or with no candidates at
all, the run reaches the end of the row with the duplicate log unchanged
(and in the no-candidate case no score is recorded). -/
theorem C3_confidence_threshold (env : Env) (s : PremiseState) :
    (∀ p ps, s.existing_premises = p :: ps →
      (8 ≤ env.scoreConfidence (confNewRecord s) p →
        ∃ s2, runTo env isNextRow 8 Node.confidenceScoring s = some (Node.nextRow, s2) ∧
          s2.duplicate_log = s.duplicate_log ++ [mkDupEntry (confidence_scoring_node env s)] ∧
          s2.successful_rows = s.successful_rows) ∧
      (env.scoreConfidence (confNewRecord s) p < 8 →
        route_after_confidence (confidence_scoring_node env s) = Node.occupancyClassification ∧
        ∃ n2 s2, runTo env isNextRow 8 Node.confidenceScoring s = some (n2, s2) ∧
          s2.duplicate_log = s.duplicate_log)) ∧
    (s.existing_premises = [] →
      route_after_confidence (confidence_scoring_node env s) = Node.occupancyClassification ∧
      (confidence_scoring_node env s).confidence_score = none ∧
      ∃ n2 s2, runTo env isNextRow 8 Node.confidenceScoring s = some (n2, s2) ∧
        s2.duplicate_log = s.duplicate_log) := by
  constructor
  · intro p ps hprem
    constructor
    · intro hsc
      have hs1 : confidence_scoring_node env s =
          { s with
              confidence_score := some (env.scoreConfidence (confNewRecord s) p)
              matched_premise_id := p.id
              next_step := "log_duplicate"
              error_message := none } := by
        simp [confidence_scoring_node, hprem, hsc]
      have hroute : route_after_confidence (confidence_scoring_node env s) = Node.logDuplicate := by
        rw [hs1]; simp [route_after_confidence]
      have e1 : runTo env isNextRow 8 Node.confidenceScoring s =
          runTo env isNextRow 7 Node.logDuplicate (confidence_scoring_node env s) := by
        show runTo env isNextRow (7 + 1) Node.confidenceScoring s = _
        rw [runTo_not_stop env isNextRow 7 Node.confidenceScoring s rfl]
        show runTo env isNextRow 7 (route_after_confidence (confidence_scoring_node env s))
          (confidence_scoring_node env s) = _
        rw [hroute]
      have e2 : runTo env isNextRow 7 Node.logDuplicate (confidence_scoring_node env s) =
          some (Node.nextRow, log_duplicate_node (confidence_scoring_node env s)) := by
        show runTo env isNextRow (6 + 1) Node.logDuplicate _ = _
        rw [runTo_not_stop env isNextRow 6 Node.logDuplicate _ rfl]
        show runTo env isNextRow 6 Node.nextRow
          (log_duplicate_node (confidence_scoring_node env s)) = _
        exact runTo_hit env isNextRow 6 Node.nextRow _ rfl
      refine ⟨log_duplicate_node (confidence_scoring_node env s), by rw [e1, e2], ?_, ?_⟩
      · show (confidence_scoring_node env s).duplicate_log ++
          [mkDupEntry (confidence_scoring_node env s)] = _
        have hd : (confidence_scoring_node env s).duplicate_log = s.duplicate_log := by
          rw [hs1]
        rw [hd]
      · show (confidence_scoring_node env s).successful_rows = s.successful_rows
        rw [hs1]
    · intro hsc
      have hnotsc : ¬8 ≤ env.scoreConfidence (confNewRecord s) p := not_le.mpr hsc
      have hs1 : confidence_scoring_node env s =
          { s with
              confidence_score := some (env.scoreConfidence (confNewRecord s) p)
              matched_premise_id := p.id
              next_step := "occupancy_classification"
              error_message := none } := by
        simp [confidence_scoring_node, hprem, hnotsc]
      have hroute : route_after_confidence (confidence_scoring_node env s) =
          Node.occupancyClassification := by
        rw [hs1]; simp [route_after_confidence]
      refine ⟨hroute, ?_⟩
      have e1 : runTo env isNextRow 8 Node.confidenceScoring s =
          runTo env isNextRow 7 Node.occupancyClassification (confidence_scoring_node env s) := by
        show runTo env isNextRow (7 + 1) Node.confidenceScoring s = _
        rw [runTo_not_stop env isNextRow 7 Node.confidenceScoring s rfl]
        show runTo env isNextRow 7 (route_after_confidence (confidence_scoring_node env s))
          (confidence_scoring_node env s) = _
        rw [hroute]
      obtain ⟨n2, s2, hrun, hdup⟩ := occ_trace env (confidence_scoring_node env s)
      refine ⟨n2, s2, by rw [e1, hrun], ?_⟩
      rw [hdup, hs1]
  · intro hprem
    have hs1 : confidence_scoring_node env s =
        { s with
            confidence_score := none
            matched_premise_id := none
            next_step := "occupancy_classification"
            error_message := none } := by
      simp [confidence_scoring_node, hprem]
    have hroute : route_after_confidence (confidence_scoring_node env s) =
        Node.occupancyClassification := by
      rw [hs1]; simp [route_after_confidence]
    refine ⟨hroute, by rw [hs1], ?_⟩
    have e1 : runTo env isNextRow 8 Node.confidenceScoring s =
        runTo env isNextRow 7 Node.occupancyClassification (confidence_scoring_node env s) := by
      show runTo env isNextRow (7 + 1) Node.confidenceScoring s = _
      rw [runTo_not_stop env isNextRow 7 Node.confidenceScoring s rfl]
      show runTo env isNextRow 7 (route_after_confidence (confidence_scoring_node env s))
        (confidence_scoring_node env s) = _
      rw [hroute]
    obtain ⟨n2, s2, hrun, hdup⟩ := occ_trace env (confidence_scoring_node env s)
    refine ⟨n2, s2, by rw [e1, hrun], ?_⟩
    rw [hdup, hs1]

/-- An existing nearby record, the sole duplicate candidate. -/
def premX : Premise := ⟨some 7, "Park Cafe", "1 Main St"⟩

/-- An environment whose scorer always returns 9 (a high-confidence match). -/
def envScore9 : Env := { envNoHits with scoreConfidence := fun _ _ => 9 }

def sC3 : PremiseState :=
  { initState [] with
      existing_premises := [premX]
      standardized_name := "Park Cafe"
      current_row := ⟨"Park Cafe", "1 Main St", "Town", "CA", "12345"⟩ }

/-- Witness for `C3_confidence_threshold`: with a score of 9 the row lands
in the duplicate log and the processed accumulator is untouched. -/
theorem C3_confidence_threshold_witness :
    ∃ s2, runTo envScore9 isNextRow 8 Node.confidenceScoring sC3 = some (Node.nextRow, s2) ∧
      s2.duplicate_log = sC3.duplicate_log ++ [mkDupEntry (confidence_scoring_node envScore9 sC3)] ∧
      s2.successful_rows = sC3.successful_rows :=
  ((C3_confidence_threshold envScore9 sC3).1 premX [] rfl).1 (by decide)

end PremisePipeline
